import Mathlib

/-
Shallow embedding of the bidirectional-relationship core of the
mcp-character-service repository:
  - src/models/relationship.py   (Relationship model, validators, the three
    SQLAlchemy event listeners implementing mirror-row consistency)
  - src/services/relationship_service.py (RelationshipService)
  - src/services/character_service.py    (CharacterService.update_character)
  - src/mcp/tools/update_character.py    (UpdateCharacterInput.validate_updates)

The store is a list of rows per table; UUIDs are modelled as Nat drawn from a
counter, timestamps as Nat passed in by the caller (the code uses server-side
now() for inserts and datetime.utcnow() for updates, both within a single
transaction, so canonical and mirror rows share one instant).  JSON metadata
and free-text fields are opaque Option String values.
-/

namespace McpCharacter

/-- RelationshipType enum from src/models/relationship.py. -/
inductive RelType
  | family
  | romantic
  | friendship
  | professional
  | adversarial
  | mentor
deriving DecidableEq, Repr

/-- RelationshipStatus enum from src/models/relationship.py. -/
inductive RelStatus
  | active
  | inactive
  | complicated
  | developing
deriving DecidableEq, Repr

/-- NarrativeRole enum from src/models/character.py. -/
inductive NarrativeRole
  | protagonist
  | antagonist
  | mentor
  | ally
  | neutral
  | comicRelief
deriving DecidableEq, Repr

/-- A row of the relationships table (columns of the Relationship model). -/
structure Rel where
  id : Nat
  character_a_id : Nat
  character_b_id : Nat
  relationship_type : RelType
  strength : Option Int
  status : RelStatus
  history : Option String
  metadata : Option String
  is_mutual : Bool
  created_at : Nat
  updated_at : Nat
deriving DecidableEq, Repr

/-- A row of the characters table.  Only the columns exercised by the
specified behaviour are modelled; identity and creation-time columns that no
operation reads or writes are omitted.  personality_traits is abstracted to
the list of dominant trait names, which is all the validators and the
personality upsert inspect beyond structural shape. -/
structure Character where
  id : Nat
  name : String
  nickname : Option String
  age : Option Int
  gender : Option String
  occupation : Option String
  backstory : Option String
  physical_description : Option String
  personality_traits : Option (List String)
  emotional_state : Option String
  narrative_role : Option NarrativeRole
  version : Nat
  updated_at : Nat
deriving DecidableEq, Repr

/-- A row of the personalities table (the slice touched by update_character:
character_id and dominant_traits). -/
structure Personality where
  character_id : Nat
  dominant_traits : List String
  updated_at : Nat
deriving DecidableEq, Repr

/-- The entity store: one list per table plus an id counter standing in for
uuid4 generation (fresh ids for new rows). -/
structure Store where
  characters : List Character
  personalities : List Personality
  rels : List Rel
  nextId : Nat
deriving DecidableEq, Repr

/-- The content fields of a relationship row: the fields the after_update
listener propagates to the mirror (strength, status, history, metadata). -/
def relContent (r : Rel) : Option Int × RelStatus × Option String × Option String :=
  (r.strength, r.status, r.history, r.metadata)

/-- RelationshipService._verify_characters_exist: counts character rows whose
id is in the given list and compares with the length of the list. -/
def verifyCharactersExist (s : Store) (ids : List Nat) : Bool :=
  (s.characters.filter (fun c => decide (c.id ∈ ids))).length = ids.length

/-- RelationshipService.get_relationship_between_characters: selects rows
matching either ordering of the two ids (optionally filtered by type) and
fetches with scalar_one_or_none.  With zero rows that yields None; with two or
more rows scalar_one_or_none raises MultipleResultsFound, which the except
handler swallows, returning None.  Hence only a singleton result produces a
row. -/
def getRelationshipBetweenCharacters (s : Store) (a b : Nat) (t? : Option RelType) :
    Option Rel :=
  let rows := s.rels.filter (fun r =>
    decide (((r.character_a_id = a ∧ r.character_b_id = b) ∨
             (r.character_a_id = b ∧ r.character_b_id = a)) ∧
            (∀ t, t? = some t → r.relationship_type = t)))
  match rows with
  | [r] => some r
  | _ => none

/-- The distinct raise sites inside RelationshipService.create_relationship.
All four surface to the caller as RelationshipValidationError; the
constructor records which message is produced:
  charactersMissing - "One or both characters do not exist"
  alreadyExists     - "Relationship already exists between these characters"
  invalidField      - ValueError from a model validator, re-raised as
                      "Failed to create relationship: ..."
  storeConstraint   - database unique-constraint violation at flush, re-raised
                      as "Failed to create relationship: ..." -/
inductive CreateErr
  | charactersMissing
  | alreadyExists
  | invalidField
  | storeConstraint
deriving DecidableEq, Repr

/-- Relationship model validators that run while Relationship(**data) assigns
its columns: the self-relationship check of validate_different_characters and
the 1..10 range check of validate_strength (type and status are enums in this
embedding, so their membership validators cannot fail). -/
def relConstructionFails (a b : Nat) (strength : Option Int) : Bool :=
  decide (a = b) ||
  (match strength with
   | some v => decide (v < 1 ∨ v > 10)
   | none => false)

/-- RelationshipService.create_relationship followed by the after_insert
listener create_bidirectional_relationship.  Order of effects as in the code:
1. _verify_characters_exist on [a, b];
2. duplicate check via get_relationship_between_characters(a, b, type);
3. Relationship(**data) construction (model validators);
4. INSERT of the canonical row - a directed duplicate of
   (character_a_id, character_b_id, relationship_type) violates the
   unique_relationship_per_type constraint and rolls back;
5. after_insert: if is_mutual and no (b, a, type) row exists, INSERT the
   mirror row with a fresh id and the canonical content fields and
   timestamps, is_mutual true. -/
def createRelationship (s : Store) (a b : Nat) (t : RelType) (strength : Option Int)
    (status : RelStatus) (history : Option String) (metadata : Option String)
    (is_mutual : Bool) (now : Nat) : Except CreateErr (Rel × Store) :=
  if ¬ verifyCharactersExist s [a, b] then
    .error .charactersMissing
  else if (getRelationshipBetweenCharacters s a b (some t)).isSome then
    .error .alreadyExists
  else if relConstructionFails a b strength then
    .error .invalidField
  else if s.rels.any (fun r =>
      decide (r.character_a_id = a ∧ r.character_b_id = b ∧ r.relationship_type = t)) then
    .error .storeConstraint
  else
    let canonical : Rel :=
      { id := s.nextId, character_a_id := a, character_b_id := b,
        relationship_type := t, strength := strength, status := status,
        history := history, metadata := metadata, is_mutual := is_mutual,
        created_at := now, updated_at := now }
    let afterCanonical := s.rels ++ [canonical]
    if is_mutual then
      if afterCanonical.any (fun r =>
          decide (r.character_a_id = b ∧ r.character_b_id = a ∧ r.relationship_type = t)) then
        .ok (canonical, { s with rels := afterCanonical, nextId := s.nextId + 1 })
      else
        let mirror : Rel :=
          { canonical with
            id := s.nextId + 1,
            character_a_id := b,
            character_b_id := a,
            is_mutual := true }
        .ok (canonical, { s with rels := afterCanonical ++ [mirror], nextId := s.nextId + 2 })
    else
      .ok (canonical, { s with rels := afterCanonical, nextId := s.nextId + 1 })

/-- One entry of the updates mapping passed to
RelationshipService.update_relationship.  The service applies every entry
whose key is an attribute of the model and is not in the excluded list
[id, character_a_id, character_b_id]; entries for the excluded identity keys
and for keys that are not attributes are skipped.  Of the applied keys,
strength runs the 1..10 range validator; relationship_type, status and
is_mutual are enum- or bool-typed here, so their validators cannot fail. -/
inductive RelUpd
  | strength (v : Option Int)
  | status (v : RelStatus)
  | history (v : Option String)
  | metadata (v : Option String)
  | is_mutual (v : Bool)
  | relationship_type (v : RelType)
  | id_field (v : Nat)
  | character_a_id (v : Nat)
  | character_b_id (v : Nat)
deriving DecidableEq, Repr

/-- setattr of one update entry on a Relationship row, including the model
validators that fire on assignment (validate_strength; a ValueError there is
re-raised by the service as RelationshipValidationError after rollback). -/
def setRelField (r : Rel) : RelUpd → Except Unit Rel
  | .strength v =>
    match v with
    | some n => if n < 1 ∨ n > 10 then .error () else .ok { r with strength := some n }
    | none => .ok { r with strength := none }
  | .status v => .ok { r with status := v }
  | .history v => .ok { r with history := v }
  | .metadata v => .ok { r with metadata := v }
  | .is_mutual v => .ok { r with is_mutual := v }
  | .relationship_type v => .ok { r with relationship_type := v }
  | .id_field _ => .ok r
  | .character_a_id _ => .ok r
  | .character_b_id _ => .ok r

/-- The update loop of RelationshipService.update_relationship, applied entry
by entry; the first validator failure aborts the whole call. -/
def applyRelUpds (r : Rel) : List RelUpd → Except Unit Rel
  | [] => .ok r
  | u :: us =>
    match setRelField r u with
    | .error e => .error e
    | .ok r1 => applyRelUpds r1 us

/-- Error outcomes of update_relationship: RelationshipNotFoundError, or
RelationshipValidationError from a validator failure (after rollback). -/
inductive UpdErr
  | notFound
  | validationFailed
deriving DecidableEq, Repr

/-- RelationshipService.update_relationship followed by the after_update
listener update_bidirectional_relationship: load the row by id, apply the
updates, stamp updated_at, write the row back; then, if the (updated) row has
is_mutual true, the listener runs one UPDATE that sets
strength/status/history/metadata/updated_at of every row whose
(character_a_id, character_b_id, relationship_type) equals the canonical
values swapped, copying from the canonical row.  A missing mirror simply
matches zero rows (the lenient-propagation case). -/
def updateRelationship (s : Store) (rid : Nat) (updates : List RelUpd) (now : Nat) :
    Except UpdErr (Rel × Store) :=
  match s.rels.find? (fun r => decide (r.id = rid)) with
  | none => .error .notFound
  | some r =>
    match applyRelUpds r updates with
    | .error _ => .error .validationFailed
    | .ok r1 =>
      let r2 := { r1 with updated_at := now }
      let afterCanonical := s.rels.map (fun x => if x.id = rid then r2 else x)
      let finalRels :=
        if r2.is_mutual then
          afterCanonical.map (fun x =>
            if x.character_a_id = r2.character_b_id ∧
               x.character_b_id = r2.character_a_id ∧
               x.relationship_type = r2.relationship_type then
              { x with
                strength := r2.strength,
                status := r2.status,
                history := r2.history,
                metadata := r2.metadata,
                updated_at := r2.updated_at }
            else x)
        else afterCanonical
      .ok (r2, { s with rels := finalRels })

/-- Whether x is shaped like the mirror of r: swapped character ids and the
same relationship type (the WHERE clause of the after_delete and after_update
listener statements). -/
def isMirrorRowB (r x : Rel) : Bool :=
  decide (x.character_a_id = r.character_b_id ∧
          x.character_b_id = r.character_a_id ∧
          x.relationship_type = r.relationship_type)

/-- RelationshipService.delete_relationship followed by the after_delete
listener delete_bidirectional_relationship: a missing id returns False with
no change; otherwise the canonical row is deleted and, if its is_mutual flag
was true, every row with the swapped character ids and the same type is
deleted too.  Returns True. -/
def deleteRelationship (s : Store) (rid : Nat) : Bool × Store :=
  match s.rels.find? (fun r => decide (r.id = rid)) with
  | none => (false, s)
  | some r =>
    let afterCanonical := s.rels.filter (fun x => ! decide (x.id = rid))
    let finalRels :=
      if r.is_mutual then
        afterCanonical.filter (fun x => ! isMirrorRowB r x)
      else afterCanonical
    (true, { s with rels := finalRels })

/-- RelationshipService.get_character_relationships: rows where the character
appears on either side, optionally filtered by type and status, ordered by
created_at descending.  Rows are appended to the store in creation order, so
the descending order is modelled as the reverse of store order. -/
def getCharacterRelationships (s : Store) (cid : Nat)
    (t? : Option RelType) (st? : Option RelStatus) : List Rel :=
  (s.rels.filter (fun r =>
    decide ((r.character_a_id = cid ∨ r.character_b_id = cid) ∧
            (∀ t, t? = some t → r.relationship_type = t) ∧
            (∀ st, st? = some st → r.status = st)))).reverse

/-- Relationship.get_other_character_id viewed from character cid (in the
traversal, cid is always one of the two sides). -/
def getOtherCharacterId (r : Rel) (cid : Nat) : Nat :=
  if r.character_a_id = cid then r.character_b_id else r.character_a_id

/-- One edge record of the network dictionary built by
get_relationship_network. -/
structure NetEdge where
  rel_id : Nat
  from_character_id : Nat
  to_character_id : Nat
  relationship_type : RelType
  strength : Option Int
  status : RelStatus
  depth : Nat
deriving DecidableEq, Repr

/-- One entry of the characters dictionary of the network. -/
structure NetCharacter where
  id : Nat
  name : String
  nickname : Option String
  narrative_role : Option NarrativeRole
deriving DecidableEq, Repr

/-- The network snapshot returned by get_relationship_network.  The Python
dict keyed by str(id) is modelled as the list of its entries in character
table order, which is the order _get_characters_by_ids returns them. -/
structure Network where
  center_character_id : Nat
  relationships : List NetEdge
  characters : List NetCharacter
  depth : Nat
deriving DecidableEq, Repr

/-- Mutable state of the breadth-first loop of get_relationship_network.
The Python visited_characters and next_level sets are modelled as
duplicate-free lists (only membership is ever observed). -/
structure BfsState where
  visited : List Nat
  nextLevel : List Nat
  edges : List NetEdge
deriving Repr

/-- The body of the inner loop of get_relationship_network for one character
of the current level: skip it if already visited, otherwise mark it visited,
record one edge (at depth index + 1) for every relationship row touching it,
and add each unvisited other character to the next level. -/
def visitChar (s : Store) (depth : Nat) (acc : BfsState) (cid : Nat) : BfsState :=
  if cid ∈ acc.visited then acc
  else
    let visited1 := acc.visited ++ [cid]
    let rels := getCharacterRelationships s cid none none
    let newEdges := rels.map (fun r =>
      { rel_id := r.id,
        from_character_id := cid,
        to_character_id := getOtherCharacterId r cid,
        relationship_type := r.relationship_type,
        strength := r.strength,
        status := r.status,
        depth := depth + 1 : NetEdge })
    let nextLevel1 := rels.foldl (fun nl r =>
      let other := getOtherCharacterId r cid
      if other ∈ visited1 then nl
      else if other ∈ nl then nl
      else nl ++ [other]) acc.nextLevel
    { visited := visited1, nextLevel := nextLevel1, edges := acc.edges ++ newEdges }

/-- The outer loop: for depth in range(max_depth), stopping early on an empty
level; fuel counts the remaining iterations of the range. -/
def bfsLevels (s : Store) : Nat → Nat → List Nat → List Nat → List NetEdge →
    List Nat × List NetEdge
  | 0, _, _, visited, edges => (visited, edges)
  | fuel + 1, depth, current, visited, edges =>
    if current.isEmpty then (visited, edges)
    else
      let st := current.foldl (visitChar s depth) ⟨visited, [], edges⟩
      bfsLevels s fuel (depth + 1) st.nextLevel st.visited st.edges

/-- RelationshipService.get_relationship_network: breadth-first expansion
from character_id for max_depth levels, then character details for every
visited id fetched from the characters table (in table order). -/
def getRelationshipNetwork (s : Store) (cid : Nat) (maxDepth : Nat) : Network :=
  let result := bfsLevels s maxDepth 0 [cid] [] []
  let chars := (s.characters.filter (fun c => decide (c.id ∈ result.1))).map
    (fun c =>
      { id := c.id, name := c.name, nickname := c.nickname,
        narrative_role := c.narrative_role : NetCharacter })
  { center_character_id := cid, relationships := result.2,
    characters := chars, depth := maxDepth }

/-- One entry of the updates mapping passed to
CharacterService.update_character.  The service setattrs every key that is an
attribute of the Character model; keys that are not attributes are skipped by
the hasattr guard.  Identity and timestamp columns are never supplied through
the tool layer and are not modelled as update keys; version is included
because it is an attribute outside the tool allow-list. -/
inductive CharUpd
  | name (v : String)
  | nickname (v : Option String)
  | age (v : Option Int)
  | gender (v : Option String)
  | occupation (v : Option String)
  | backstory (v : Option String)
  | physical_description (v : Option String)
  | personality_traits (v : Option (List String))
  | emotional_state (v : Option String)
  | narrative_role (v : Option NarrativeRole)
  | version (v : Nat)
  | unknownKey (key : String)
deriving DecidableEq, Repr

/-- The dictionary key of an update entry, as checked against the allow-list
by UpdateCharacterInput.validate_updates. -/
def CharUpd.keyName : CharUpd → String
  | .name _ => "name"
  | .nickname _ => "nickname"
  | .age _ => "age"
  | .gender _ => "gender"
  | .occupation _ => "occupation"
  | .backstory _ => "backstory"
  | .physical_description _ => "physical_description"
  | .personality_traits _ => "personality_traits"
  | .emotional_state _ => "emotional_state"
  | .narrative_role _ => "narrative_role"
  | .version _ => "version"
  | .unknownKey k => k

/-- setattr of one update entry on a Character row, including the model
validators that fire on assignment (validate_name, validate_nickname,
validate_age, validate_personality_traits; narrative_role and
emotional_state are enum- or shape-typed here, so their membership and
structure validators cannot fail).  Trait entries are abstracted to their
names; the duplicate check of PersonalityTraits.validate_dominant_traits is
case-insensitive. -/
def setCharField (c : Character) : CharUpd → Except Unit Character
  | .name v =>
    if v.trim = "" ∨ v.length > 100 then .error ()
    else .ok { c with name := v.trim }
  | .nickname v =>
    match v with
    | none => .ok { c with nickname := none }
    | some s =>
      if s.length > 50 then .error ()
      else .ok { c with nickname := if s.trim = "" then none else some s.trim }
  | .age v =>
    match v with
    | none => .ok { c with age := none }
    | some a => if a < 0 ∨ a > 200 then .error () else .ok { c with age := some a }
  | .gender v => .ok { c with gender := v }
  | .occupation v => .ok { c with occupation := v }
  | .backstory v => .ok { c with backstory := v }
  | .physical_description v => .ok { c with physical_description := v }
  | .personality_traits v =>
    match v with
    | none => .ok { c with personality_traits := none }
    | some ts =>
      if (ts.map (fun t => t.toLower)).Nodup then
        .ok { c with personality_traits := some ts }
      else .error ()
  | .emotional_state v => .ok { c with emotional_state := v }
  | .narrative_role v => .ok { c with narrative_role := v }
  | .version v => .ok { c with version := v }
  | .unknownKey _ => .ok c

/-- The update loop of CharacterService.update_character, applied entry by
entry; the first validator failure aborts the whole call (rollback). -/
def applyCharUpds (c : Character) : List CharUpd → Except Unit Character
  | [] => .ok c
  | u :: us =>
    match setCharField c u with
    | .error e => .error e
    | .ok c1 => applyCharUpds c1 us

/-- Error outcomes of update_character: CharacterNotFoundError, or
CharacterValidationError (validator failure or the personality upsert
crashing on a None personality_traits value, both after rollback). -/
inductive CharErr
  | notFound
  | validationFailed
deriving DecidableEq, Repr

/-- The personality_traits value of the updates dict, when the key is
present (a dict has at most one value per key; with a list this is the last
entry for the key, matching left-to-right setattr order). -/
def lastTraitsUpd : List CharUpd → Option (Option (List String))
  | [] => none
  | u :: us =>
    match lastTraitsUpd us with
    | some v => some v
    | none =>
      match u with
      | .personality_traits v => some v
      | _ => none

/-- CharacterService.update_character: load the character, remember its
version, setattr each update, then set version to the remembered value plus
one and updated_at to now; if personality_traits was among the updates,
upsert the Personality row for the character (a None value makes the upsert
expression raise, rolling the whole call back).  Relationship rows are never
touched. -/
def updateCharacter (s : Store) (cid : Nat) (updates : List CharUpd) (now : Nat) :
    Except CharErr (Character × Store) :=
  match s.characters.find? (fun c => decide (c.id = cid)) with
  | none => .error .notFound
  | some c =>
    let current_version := c.version
    match applyCharUpds c updates with
    | .error _ => .error .validationFailed
    | .ok c1 =>
      let c2 := { c1 with version := current_version + 1, updated_at := now }
      match lastTraitsUpd updates with
      | some none => .error .validationFailed
      | some (some ts) =>
        let dominant := ts
        let pers :=
          if s.personalities.any (fun p => decide (p.character_id = cid)) then
            s.personalities.map (fun p =>
              if p.character_id = cid then
                { p with dominant_traits := dominant, updated_at := now }
              else p)
          else
            s.personalities ++ [{ character_id := cid, dominant_traits := dominant,
                                  updated_at := now : Personality }]
        .ok (c2, { s with
                   characters := s.characters.map (fun x => if x.id = cid then c2 else x),
                   personalities := pers })
      | none =>
        .ok (c2, { s with
                   characters := s.characters.map (fun x => if x.id = cid then c2 else x) })

/-- The allow-list of UpdateCharacterInput.validate_updates. -/
def allowedUpdateFields : List String :=
  ["name", "nickname", "age", "gender", "occupation",
   "backstory", "physical_description", "personality_traits",
   "emotional_state", "narrative_role"]

/-- UpdateCharacterInput.validate_updates: the updates dict must be nonempty,
every key must be in the allow-list, a supplied name must be nonempty after
stripping, a supplied age must be an int in 0..200 (a None age makes the
range comparison raise), and a supplied narrative_role must be one of the
role values (a None role is not in the list and is rejected). -/
def validateUpdates (updates : List CharUpd) : Bool :=
  !updates.isEmpty &&
  updates.all (fun u => decide (u.keyName ∈ allowedUpdateFields)) &&
  updates.all (fun u =>
    match u with
    | .name v => !(v.trim = "")
    | _ => true) &&
  updates.all (fun u =>
    match u with
    | .age (some a) => decide (0 ≤ a ∧ a ≤ 200)
    | .age none => false
    | _ => true) &&
  updates.all (fun u =>
    match u with
    | .narrative_role (some _) => true
    | .narrative_role none => false
    | _ => true)

/-- The exception kinds the execute method of UpdateCharacterTool can catch,
with the raise site each represents:
  inputValidation - pydantic ValidationError raised while constructing
    UpdateCharacterInput (a validate_updates rejection); the except clauses
    list only CharacterNotFoundError, CharacterValidationError and the
    generic Exception, so this one lands in the generic branch
  notFound        - CharacterNotFoundError from the service
  charValidation  - CharacterValidationError from the service -/
inductive ToolErrKind
  | inputValidation
  | notFound
  | charValidation
deriving DecidableEq, Repr

/-- The error_type tag the execute method puts in the failure response for
each exception kind (the pydantic ValidationError falls through to the
generic handler and is tagged internal_error). -/
def errorTypeTag : ToolErrKind → String
  | .inputValidation => "internal_error"
  | .notFound => "not_found_error"
  | .charValidation => "validation_error"

/-- The success payload of the update_character tool. -/
structure UpdateCharacterPayload where
  character_id : Nat
  updated_fields : List String
  updated_at : Nat
deriving DecidableEq, Repr

/-- Result shape of a tool call: either the success payload or the failure
response carrying the caught exception kind. -/
inductive ToolResult (α : Type)
  | ok (value : α)
  | failure (kind : ToolErrKind)
deriving DecidableEq, Repr

/-- UpdateCharacterTool.execute: parse and validate the input (raising
pydantic ValidationError before any session is opened), then run
CharacterService.update_character and assemble the response; every failure
leaves the store untouched (rollback or no session at all). -/
def executeUpdateCharacter (s : Store) (cid : Nat) (updates : List CharUpd)
    (now : Nat) : ToolResult UpdateCharacterPayload × Store :=
  if ¬ validateUpdates updates then (.failure .inputValidation, s)
  else
    match updateCharacter s cid updates now with
    | .error .notFound => (.failure .notFound, s)
    | .error .validationFailed => (.failure .charValidation, s)
    | .ok (c, s1) =>
      (.ok { character_id := c.id,
             updated_fields := updates.map (fun u => u.keyName),
             updated_at := c.updated_at }, s1)

/-! Concrete fixtures used by the scenario theorems. -/

/-- A character row with the given id and name and default optional fields. -/
def baseCharacter (i : Nat) (nm : String) : Character :=
  { id := i, name := nm, nickname := none, age := none, gender := none,
    occupation := none, backstory := none, physical_description := none,
    personality_traits := none, emotional_state := none, narrative_role := none,
    version := 1, updated_at := 0 }

/-- A relationship row with the given identity fields and default content. -/
def baseRel (i a b : Nat) (t : RelType) : Rel :=
  { id := i, character_a_id := a, character_b_id := b, relationship_type := t,
    strength := some 7, status := .active, history := none, metadata := none,
    is_mutual := false, created_at := 0, updated_at := 0 }

/-- Two characters, no relationships: the starting store of the create
scenarios. -/
def pairStore : Store :=
  { characters := [baseCharacter 1 "Elena", baseCharacter 2 "Marcus"],
    personalities := [], rels := [], nextId := 100 }

/-- The first (successful) mutual create of the scenarios. -/
def firstCreate : Except CreateErr (Rel × Store) :=
  createRelationship pairStore 1 2 .friendship (some 7) .active (some "h") (some "m")
    true 5

/-- The canonical row returned by the first create (none on failure). -/
def firstCanonical : Option Rel :=
  match firstCreate with
  | .ok p => some p.1
  | .error _ => none

/-- The store after the first create (unchanged on failure, as the service
rolls back). -/
def afterFirstCreate : Store :=
  match firstCreate with
  | .ok p => p.2
  | .error _ => pairStore

/-- The mirror row of the first create, located by swapped character ids and
the same type. -/
def firstMirror : Option Rel :=
  afterFirstCreate.rels.find? (fun m =>
    decide (m.character_a_id = 2 ∧ m.character_b_id = 1 ∧
            m.relationship_type = RelType.friendship))

/-- C1: a successful mutual create does produce a mirror row (B, A, type)
whose strength, status, history and metadata equal those of the canonical
row; but get_relationship_between then returns None for BOTH orderings of
the pair, because its symmetric query matches the two rows of the pair and
scalar_one_or_none raises MultipleResultsFound, which the handler swallows
into None.  The second half of the claim therefore fails on the code. -/
theorem c1_mirror_identical_but_symmetric_lookup_none :
    firstCanonical.isSome = true
    ∧ firstMirror.isSome = true
    ∧ firstMirror.map relContent = firstCanonical.map relContent
    ∧ firstCanonical.map relContent
        = some (some 7, RelStatus.active, some "h", some "m")
    ∧ getRelationshipBetweenCharacters afterFirstCreate 1 2 (some .friendship) = none
    ∧ getRelationshipBetweenCharacters afterFirstCreate 2 1 (some .friendship) = none := by
  decide

/-- The error of a create call, when it failed. -/
def createError : Except CreateErr (Rel × Store) → Option CreateErr
  | .error e => some e
  | .ok _ => none

/-- The store after a non-mutual create of the same pair and type (single
row, no mirror). -/
def afterNonMutualCreate : Store :=
  match createRelationship pairStore 1 2 .friendship none .active none none false 5 with
  | .ok p => p.2
  | .error _ => pairStore

/-- C4: after a successful mutual create, a second create of the same pair
and type (in either argument order) does fail, but not through the
duplicate-detection lookup: get_relationship_between_characters returns None
on the two-row pair (MultipleResultsFound swallowed), so the dedicated
already-exists branch cannot fire and the failure is the storage
unique-constraint violation wrapped as a generic validation error.  Only for
a NON-mutual first create (single row) does the lookup match and the
already-exists error appear. -/
theorem c4_duplicate_create_fails_without_already_exists :
    firstCanonical.isSome = true
    ∧ createError (createRelationship afterFirstCreate 1 2 .friendship (some 7)
        .active none none true 6) = some .storeConstraint
    ∧ createError (createRelationship afterFirstCreate 2 1 .friendship (some 7)
        .active none none true 6) = some .storeConstraint
    ∧ getRelationshipBetweenCharacters afterFirstCreate 1 2 (some .friendship) = none
    ∧ CreateErr.storeConstraint ≠ CreateErr.alreadyExists
    ∧ createError (createRelationship afterNonMutualCreate 1 2 .friendship none
        .active none none false 6) = some .alreadyExists
    ∧ createError (createRelationship afterNonMutualCreate 2 1 .friendship none
        .active none none false 6) = some .alreadyExists := by
  decide

/-- The three-character cyclic graph of Scenario 5: Elena (1) mentored by 2,
2 befriends 3, 3 works with Elena; one stored row per edge. -/
def netStore : Store :=
  { characters := [baseCharacter 1 "Elena", baseCharacter 2 "Marcus",
                   baseCharacter 3 "Sarah"],
    personalities := [],
    rels := [baseRel 101 1 2 .mentor, baseRel 102 2 3 .friendship,
             baseRel 103 3 1 .professional],
    nextId := 200 }

/-- C9 counterexample: on the cyclic three-edge graph, the network returned
for Elena with max_depth 2 does not contain exactly 3 relationship edges:
every stored row is appended once per expanded endpoint, giving 6 records. -/
theorem c9_network_not_three_edges_counterexample :
    ¬ ((getRelationshipNetwork netStore 1 2).relationships.length = 3) := by
  decide

/-- C9 amended: the traversal returns exactly 3 characters, but 6 edge
records - each stored edge recorded twice, once from each endpoint at that
expansion depth.  The professional edge of character 3 appears at depth 1
(discovered from Elena) and again at depth 2 (from character 3), and the
friendship edge appears twice at depth 2; edges are not recorded once at
first discovery. -/
theorem c9_network_scenario_amended :
    (getRelationshipNetwork netStore 1 2).characters.map (fun c => c.id) = [1, 2, 3]
    ∧ (getRelationshipNetwork netStore 1 2).relationships.map
        (fun e => (e.rel_id, e.from_character_id, e.to_character_id, e.depth))
      = [(103, 1, 3, 1), (101, 1, 2, 1), (103, 3, 1, 2), (102, 3, 2, 2),
         (102, 2, 3, 2), (101, 2, 1, 2)] := by
  decide

/-- C10: with max_depth 0 the breadth-first loop body never runs, no
character is ever visited, and the returned snapshot has an empty characters
map and an empty relationships list - the starting character itself is not
reported. -/
theorem c10_network_depth_zero_empty (s : Store) (cid : Nat) :
    (getRelationshipNetwork s cid 0).characters = []
    ∧ (getRelationshipNetwork s cid 0).relationships = [] := by
  constructor <;> simp [getRelationshipNetwork, bfsLevels]

/-- C5: create_relationship with the same character on both sides always
fails with a RelationshipValidationError, whatever the other arguments and
the store: the existence check counts at most one matching character row
against a required count of two, and even when it passes (or a degenerate
self row is present) the duplicate check or the self-relationship validator
of the model rejects the construction. -/
theorem c5_self_relationship_always_fails (s : Store) (x : Nat) (t : RelType)
    (strength : Option Int) (status : RelStatus) (history metadata : Option String)
    (mflag : Bool) (now : Nat) :
    ∃ e, createRelationship s x x t strength status history metadata mflag now
      = Except.error e := by
  unfold createRelationship
  split
  · exact ⟨.charactersMissing, rfl⟩
  · split
    · exact ⟨.alreadyExists, rfl⟩
    · split
      · exact ⟨.invalidField, rfl⟩
      · rename_i hcon
        exfalso
        apply hcon
        simp [relConstructionFails]

/-- setattr of any update entry leaves the character id unchanged (the id
column is never an update key). -/
lemma setCharField_id (c c1 : Character) (u : CharUpd) (h : setCharField c u = .ok c1) :
    c1.id = c.id := by
  cases u <;> simp only [setCharField] at h <;> repeat' split at h
  all_goals
    first
    | exact Except.noConfusion h
    | (injection h with h1; rw [← h1])

/-- The whole update loop leaves the character id unchanged. -/
lemma applyCharUpds_id (us : List CharUpd) : ∀ (c c1 : Character),
    applyCharUpds c us = .ok c1 → c1.id = c.id := by
  induction us with
  | nil =>
    intro c c1 h
    injection h with h1
    rw [h1]
  | cons u us ih =>
    intro c c1 h
    simp only [applyCharUpds] at h
    cases hset : setCharField c u with
    | error e => rw [hset] at h; exact absurd h (by simp)
    | ok cm =>
      rw [hset] at h
      exact (ih cm c1 h).trans (setCharField_id c cm u hset)

/-- Replacing the row found at an id and looking the id up again yields the
replacement. -/
lemma find?_map_update (l : List Character) (cid : Nat) (c c2 : Character)
    (h : l.find? (fun x => decide (x.id = cid)) = some c) (h2 : c2.id = cid) :
    (l.map (fun x => if x.id = cid then c2 else x)).find?
      (fun x => decide (x.id = cid)) = some c2 := by
  induction l with
  | nil => simp at h
  | cons y l ih =>
    by_cases hy : y.id = cid
    · simp [List.find?, hy, h2]
    · have h1 : l.find? (fun x => decide (x.id = cid)) = some c := by
        simpa [List.find?, hy] using h
      simpa [List.find?, hy] using ih h1

/-- C6: every successful update_character call sets the version of the
updated character to its previous value plus exactly one, whatever the
updates contain (the version is recorded before the setattr loop and
overwritten after it, so even an explicit version key cannot change the
outcome), and the stored row under the character id is the returned
character; successive successful calls therefore increase the version by
exactly 1 each. -/
theorem c6_update_character_increments_version (s : Store) (cid : Nat)
    (updates : List CharUpd) (now : Nat) (c c2 : Character) (s2 : Store)
    (hfind : s.characters.find? (fun x => decide (x.id = cid)) = some c)
    (hok : updateCharacter s cid updates now = .ok (c2, s2)) :
    c2.version = c.version + 1
    ∧ s2.characters.find? (fun x => decide (x.id = cid)) = some c2
    ∧ s2.rels = s.rels := by
  have hcid : c.id = cid := by
    have := List.find?_some hfind
    simpa using this
  simp only [updateCharacter, hfind] at hok
  cases happ : applyCharUpds c updates with
  | error e => simp only [happ] at hok; exact Except.noConfusion hok
  | ok c1 =>
    simp only [happ] at hok
    have hid1 : c1.id = c.id := applyCharUpds_id updates c c1 happ
    cases htr : lastTraitsUpd updates with
    | none =>
      simp only [htr] at hok
      injection hok with h1
      injection h1 with hc hs
      subst hc
      refine ⟨rfl, ?_, ?_⟩
      · rw [← hs]
        exact find?_map_update s.characters cid c _ hfind (by simp [hid1, hcid])
      · rw [← hs]
    | some v =>
      cases v with
      | none => simp only [htr] at hok; exact Except.noConfusion hok
      | some ts =>
        simp only [htr] at hok
        injection hok with h1
        injection h1 with hc hs
        subst hc
        refine ⟨rfl, ?_, ?_⟩
        · rw [← hs]
          exact find?_map_update s.characters cid c _ hfind (by simp [hid1, hcid])
        · rw [← hs]

/-- Result of the concrete age update used as the C6 witness input. -/
def c6wResult : Except CharErr (Character × Store) :=
  updateCharacter pairStore 1 [CharUpd.age (some 29)] 7

/-- The character returned by the C6 witness update. -/
def c6wChar : Character :=
  match c6wResult with
  | .ok p => p.1
  | .error _ => baseCharacter 1 "Elena"

/-- The store returned by the C6 witness update. -/
def c6wStore : Store :=
  match c6wResult with
  | .ok p => p.2
  | .error _ => pairStore

/-- C6 witness: updating the age of character 1 in the two-character store
bumps its version from 1 to 2, stores the result and leaves relationship
rows untouched. -/
theorem c6_update_character_increments_version_witness :
    c6wChar.version = (baseCharacter 1 "Elena").version + 1
    ∧ c6wStore.characters.find? (fun x => decide (x.id = 1)) = some c6wChar
    ∧ c6wStore.rels = pairStore.rels :=
  c6_update_character_increments_version pairStore 1 [CharUpd.age (some 29)] 7
    (baseCharacter 1 "Elena") c6wChar c6wStore (by decide) rfl

/-- C7: an update_character tool call whose updates contain any key outside
the allow-list is rejected while constructing UpdateCharacterInput - the
validator raises, pydantic wraps it in a ValidationError, no database session
is ever opened and the store (so every field of every character) is
unchanged.  The execute handler catches that ValidationError in its generic
branch, so the response is tagged internal_error rather than
validation_error. -/
theorem c7_disallowed_update_key_rejected_unchanged (s : Store) (cid : Nat)
    (updates : List CharUpd) (now : Nat) (u : CharUpd)
    (hu : u ∈ updates) (hbad : u.keyName ∉ allowedUpdateFields) :
    executeUpdateCharacter s cid updates now
      = (ToolResult.failure ToolErrKind.inputValidation, s) := by
  have hall : updates.all (fun u => decide (u.keyName ∈ allowedUpdateFields)) = false := by
    rw [List.all_eq_false]
    exact ⟨u, hu, by simpa using hbad⟩
  have hval : validateUpdates updates = false := by
    simp [validateUpdates, hall]
  simp [executeUpdateCharacter, hval]

/-- C7 witness: an update containing the key favorite_color (not a Character
attribute) is rejected and the two-character store is untouched; the same
applies to the version key, which is an attribute but is outside the
allow-list. -/
theorem c7_disallowed_update_key_rejected_unchanged_witness :
    executeUpdateCharacter pairStore 1 [CharUpd.age (some 29),
        CharUpd.unknownKey "favorite_color"] 7
      = (ToolResult.failure ToolErrKind.inputValidation, pairStore)
    ∧ executeUpdateCharacter pairStore 1 [CharUpd.version 42] 7
      = (ToolResult.failure ToolErrKind.inputValidation, pairStore) :=
  ⟨c7_disallowed_update_key_rejected_unchanged pairStore 1
      [CharUpd.age (some 29), CharUpd.unknownKey "favorite_color"] 7
      (CharUpd.unknownKey "favorite_color") (by decide) (by decide),
   c7_disallowed_update_key_rejected_unchanged pairStore 1
      [CharUpd.version 42] 7 (CharUpd.version 42) (by decide) (by decide)⟩

/-- Whether an update entry is one of the content-field keys the after_update
listener propagates (strength, status, history, metadata). -/
def RelUpd.isContent : RelUpd → Bool
  | .strength _ => true
  | .status _ => true
  | .history _ => true
  | .metadata _ => true
  | .is_mutual _ => false
  | .relationship_type _ => false
  | .id_field _ => false
  | .character_a_id _ => false
  | .character_b_id _ => false

/-- A store for the C2 counterexample, reachable through the service: a
mutual pair (rows 10 and 11) whose canonical side was later updated with
is_mutual false and strength 3 (the listener does not fire for a non-mutual
target, so row 11 keeps strength 9 and is_mutual true). -/
def c2Store : Store :=
  { characters := [baseCharacter 1 "Elena", baseCharacter 2 "Marcus"],
    personalities := [],
    rels := [{ baseRel 10 1 2 .friendship with is_mutual := false, strength := some 3 },
             { baseRel 11 2 1 .friendship with is_mutual := true, strength := some 9 }],
    nextId := 50 }

/-- The store after updating the non-mutual row 10 with is_mutual true. -/
def c2AfterStore : Store :=
  match updateRelationship c2Store 10 [RelUpd.is_mutual true] 99 with
  | .ok p => p.2
  | .error _ => c2Store

/-- C2 counterexample: relationship 10 has is_mutual false, yet
update_relationship(10, updates) with updates setting is_mutual true
modifies the mirror row 11 (the listener reads the flag after the setattr
loop, finds it true, and overwrites the content fields and updated_at of
row 11 with those of row 10) - refuting, as stated, that updating a
relationship whose is_mutual flag is false never modifies any mirror row. -/
theorem c2_nonmutual_update_modifies_mirror_counterexample :
    (c2Store.rels.find? (fun x => decide (x.id = 10))).map Rel.is_mutual = some false
    ∧ ¬ (c2AfterStore.rels.find? (fun x => decide (x.id = 11))
          = c2Store.rels.find? (fun x => decide (x.id = 11))) := by
  decide

/-- Every content-field setattr preserves the identity fields and the
is_mutual flag of the row. -/
lemma applyRelUpds_content_preserves (us : List RelUpd) : ∀ (r r1 : Rel),
    (∀ u ∈ us, u.isContent = true) → applyRelUpds r us = .ok r1 →
    r1.id = r.id ∧ r1.character_a_id = r.character_a_id
      ∧ r1.character_b_id = r.character_b_id
      ∧ r1.relationship_type = r.relationship_type
      ∧ r1.is_mutual = r.is_mutual := by
  induction us with
  | nil =>
    intro r r1 _ h
    injection h with h1
    rw [h1]
    exact ⟨rfl, rfl, rfl, rfl, rfl⟩
  | cons u us ih =>
    intro r r1 hc h
    simp only [applyRelUpds] at h
    cases hset : setRelField r u with
    | error e => rw [hset] at h; exact Except.noConfusion h
    | ok rm =>
      rw [hset] at h
      have hrest := ih rm r1 (fun v hv => hc v (List.mem_cons_of_mem u hv)) h
      have hstep : rm.id = r.id ∧ rm.character_a_id = r.character_a_id
          ∧ rm.character_b_id = r.character_b_id
          ∧ rm.relationship_type = r.relationship_type
          ∧ rm.is_mutual = r.is_mutual := by
        have hu : u.isContent = true := hc u (List.mem_cons_self u us)
        cases u <;> simp only [RelUpd.isContent] at hu <;>
          simp only [setRelField] at hset <;> repeat' split at hset
        all_goals
          first
          | exact Bool.noConfusion hu
          | exact Except.noConfusion hset
          | (injection hset with h1; rw [← h1]; exact ⟨rfl, rfl, rfl, rfl, rfl⟩)
      exact ⟨hrest.1.trans hstep.1,
             hrest.2.1.trans hstep.2.1,
             hrest.2.2.1.trans hstep.2.2.1,
             hrest.2.2.2.1.trans hstep.2.2.2.1,
             hrest.2.2.2.2.trans hstep.2.2.2.2⟩

/-- C2 amended: for updates restricted to the content-field keys (strength,
status, history, metadata) the claim holds: a successful update of a
relationship whose is_mutual flag is true leaves the canonical row stored
with the returned content fields and every row with swapped character ids
and the same type (the mirror, when present) holding exactly those same
content fields; a successful update of a relationship whose is_mutual flag
is false rewrites only the row with the updated id and no other row.  The
original claim fails only for updates that themselves set is_mutual (or
relationship_type), as the counterexample shows. -/
theorem c2_content_update_mirror_propagation (s : Store) (rid : Nat)
    (updates : List RelUpd) (now : Nat) (r r2 : Rel) (s2 : Store)
    (hfind : s.rels.find? (fun x => decide (x.id = rid)) = some r)
    (hcontent : ∀ u ∈ updates, u.isContent = true)
    (hok : updateRelationship s rid updates now = .ok (r2, s2)) :
    (r.is_mutual = true →
      (∃ x ∈ s2.rels, x.id = r.id ∧ relContent x = relContent r2)
      ∧ (∀ x ∈ s2.rels,
          x.character_a_id = r.character_b_id →
          x.character_b_id = r.character_a_id →
          x.relationship_type = r.relationship_type →
          relContent x = relContent r2))
    ∧ (r.is_mutual = false →
        s2.rels = s.rels.map (fun x => if x.id = rid then r2 else x)) := by
  have hrid : r.id = rid := by
    have := List.find?_some hfind
    simpa using this
  have hrmem : r ∈ s.rels := List.mem_of_find?_eq_some hfind
  simp only [updateRelationship, hfind] at hok
  cases happ : applyRelUpds r updates with
  | error e => simp only [happ] at hok; exact Except.noConfusion hok
  | ok r1 =>
    simp only [happ] at hok
    obtain ⟨hid1, ha1, hb1, ht1, hm1⟩ :=
      applyRelUpds_content_preserves updates r r1 hcontent happ
    constructor
    · intro hmut
      have hm2 : r1.is_mutual = true := hm1.trans hmut
      rw [if_pos hm2] at hok
      injection hok with h1
      injection h1 with hr2 hs2
      subst hr2
      subst hs2
      constructor
      · refine ⟨_, List.mem_map_of_mem _ (List.mem_map_of_mem _ hrmem), ?_⟩
        simp only [if_pos hrid]
        split
        · exact ⟨hid1, rfl⟩
        · exact ⟨hid1, rfl⟩
      · intro x hx hxa hxb hxt
        obtain ⟨y, hy, hgy⟩ := List.mem_map.mp hx
        split at hgy
        · rw [← hgy]
          exact rfl
        · rename_i hcond
          exfalso
          apply hcond
          rw [hgy]
          exact ⟨hxa.trans hb1.symm, hxb.trans ha1.symm, hxt.trans ht1.symm⟩
    · intro hmut
      have hm2 : r1.is_mutual = false := hm1.trans hmut
      rw [if_neg (by simp [hm2])] at hok
      injection hok with h1
      injection h1 with hr2 hs2
      rw [← hs2, ← hr2]

/-- The canonical row of the C2 witness store: half of a proper mutual pair. -/
def c2wRow : Rel :=
  { baseRel 20 1 2 .friendship with is_mutual := true, strength := some 8 }

/-- The mutual-pair store of the C2 witness. -/
def c2wStore : Store :=
  { characters := [baseCharacter 1 "Elena", baseCharacter 2 "Marcus"],
    personalities := [],
    rels := [c2wRow,
             { baseRel 21 2 1 .friendship with is_mutual := true, strength := some 8 }],
    nextId := 60 }

/-- Result of the content-only update of the C2 witness. -/
def c2wResult : Except UpdErr (Rel × Store) :=
  updateRelationship c2wStore 20 [RelUpd.strength (some 5)] 99

/-- The relationship returned by the C2 witness update. -/
def c2wRel : Rel :=
  match c2wResult with
  | .ok p => p.1
  | .error _ => c2wRow

/-- The store returned by the C2 witness update. -/
def c2wAfter : Store :=
  match c2wResult with
  | .ok p => p.2
  | .error _ => c2wStore

/-- C2 witness: a strength-only update of the canonical row of a mutual pair
leaves the canonical row stored and every swapped-ids row of the same type
with the canonical content fields. -/
theorem c2_content_update_mirror_propagation_witness :
    (c2wRow.is_mutual = true →
      (∃ x ∈ c2wAfter.rels, x.id = c2wRow.id ∧ relContent x = relContent c2wRel)
      ∧ (∀ x ∈ c2wAfter.rels,
          x.character_a_id = c2wRow.character_b_id →
          x.character_b_id = c2wRow.character_a_id →
          x.relationship_type = c2wRow.relationship_type →
          relContent x = relContent c2wRel))
    ∧ (c2wRow.is_mutual = false →
        c2wAfter.rels = c2wStore.rels.map (fun x => if x.id = 20 then c2wRel else x)) :=
  c2_content_update_mirror_propagation c2wStore 20 [RelUpd.strength (some 5)] 99
    c2wRow c2wRel c2wAfter (by decide) (by decide) rfl

/-- Whether x is a row between the unordered pair of characters a and b (in
either orientation). -/
def involvesPairB (x : Rel) (a b : Nat) : Bool :=
  decide ((x.character_a_id = a ∧ x.character_b_id = b) ∨
          (x.character_a_id = b ∧ x.character_b_id = a))

/-- C3: deleting an existing relationship returns true, removes the row with
that id, and is idempotent (a second delete of the same id returns false and
changes nothing, as does any delete of a missing id); when the deleted row
was mutual and the pair had no rows beyond the canonical one and its
mirror-shaped rows, no row between the two characters survives, so the
symmetric lookup returns None in both orders. -/
theorem c3_delete_relationship_removes_pair (s : Store) (rid : Nat) (r : Rel)
    (hfind : s.rels.find? (fun x => decide (x.id = rid)) = some r) :
    (deleteRelationship s rid).1 = true
    ∧ (∀ x ∈ (deleteRelationship s rid).2.rels, ¬ x.id = rid)
    ∧ deleteRelationship (deleteRelationship s rid).2 rid
        = (false, (deleteRelationship s rid).2)
    ∧ (r.is_mutual = true →
        (∀ x ∈ s.rels, involvesPairB x r.character_a_id r.character_b_id = true →
          x.id = rid ∨ isMirrorRowB r x = true) →
        getRelationshipBetweenCharacters (deleteRelationship s rid).2
          r.character_a_id r.character_b_id none = none
        ∧ getRelationshipBetweenCharacters (deleteRelationship s rid).2
          r.character_b_id r.character_a_id none = none)
    ∧ (∀ (s0 : Store) (rid0 : Nat),
        s0.rels.find? (fun x => decide (x.id = rid0)) = none →
        deleteRelationship s0 rid0 = (false, s0)) := by
  have hd : deleteRelationship s rid
      = (true, { s with rels :=
          (if r.is_mutual then
            List.filter (fun x => ! isMirrorRowB r x)
              (List.filter (fun x => ! decide (x.id = rid)) s.rels)
          else List.filter (fun x => ! decide (x.id = rid)) s.rels) }) := by
    simp only [deleteRelationship, hfind]
  have hmem : ∀ x ∈ (deleteRelationship s rid).2.rels,
      x ∈ s.rels ∧ ¬ x.id = rid ∧ (r.is_mutual = true → ¬ isMirrorRowB r x = true) := by
    intro x hx
    rw [hd] at hx
    by_cases hm : r.is_mutual = true
    · rw [if_pos hm] at hx
      obtain ⟨hx1, hx2⟩ := List.mem_filter.mp hx
      obtain ⟨hx0, hx3⟩ := List.mem_filter.mp hx1
      refine ⟨hx0, ?_, fun _ => ?_⟩
      · simpa using hx3
      · simpa using hx2
    · rw [if_neg hm] at hx
      obtain ⟨hx0, hx3⟩ := List.mem_filter.mp hx
      exact ⟨hx0, by simpa using hx3, fun hmm => absurd hmm hm⟩
  refine ⟨by rw [hd], fun x hx => (hmem x hx).2.1, ?_, ?_, ?_⟩
  · have hnone : (deleteRelationship s rid).2.rels.find?
        (fun x => decide (x.id = rid)) = none := by
      rw [List.find?_eq_none]
      intro x hx
      simpa using (hmem x hx).2.1
    generalize hg : (deleteRelationship s rid).2 = s1 at hnone ⊢
    simp only [deleteRelationship, hnone]
  · intro hm h3
    have hrows : ∀ (a b : Nat),
        (∀ x ∈ s.rels, involvesPairB x a b = true → x.id = rid ∨ isMirrorRowB r x = true) →
        getRelationshipBetweenCharacters (deleteRelationship s rid).2 a b none = none := by
      intro a b hab
      have hfilt : (deleteRelationship s rid).2.rels.filter (fun x =>
          decide (((x.character_a_id = a ∧ x.character_b_id = b) ∨
                   (x.character_a_id = b ∧ x.character_b_id = a)) ∧
                  (∀ t, (none : Option RelType) = some t → x.relationship_type = t)))
          = [] := by
        rw [List.filter_eq_nil_iff]
        intro x hx hpred
        obtain ⟨hx0, hxid, hxmir⟩ := hmem x hx
        have hpair : involvesPairB x a b = true := by
          have := of_decide_eq_true hpred
          exact decide_eq_true this.1
        rcases hab x hx0 hpair with hcase | hcase
        · exact hxid hcase
        · exact (hxmir hm) hcase
      simp only [getRelationshipBetweenCharacters, hfilt]
    constructor
    · exact hrows r.character_a_id r.character_b_id h3
    · refine hrows r.character_b_id r.character_a_id ?_
      intro x hx hpair
      refine h3 x hx ?_
      have := of_decide_eq_true hpair
      exact decide_eq_true this.symm
  · intro s0 rid0 h0
    simp only [deleteRelationship, h0]

/-- The mutual-pair store of the C3 witness: rows 30 and 31 form the only
pair between characters 1 and 2. -/
def c3wStore : Store :=
  { characters := [baseCharacter 1 "Elena", baseCharacter 2 "Marcus"],
    personalities := [],
    rels := [{ baseRel 30 1 2 .mentor with is_mutual := true },
             { baseRel 31 2 1 .mentor with is_mutual := true }],
    nextId := 70 }

/-- C3 witness: deleting row 30 of the witness pair returns true, leaves no
row with id 30, makes both symmetric lookups return None, and a second
delete of id 30 returns false without further change. -/
theorem c3_delete_relationship_removes_pair_witness :
    (deleteRelationship c3wStore 30).1 = true
    ∧ getRelationshipBetweenCharacters (deleteRelationship c3wStore 30).2 1 2 none = none
    ∧ getRelationshipBetweenCharacters (deleteRelationship c3wStore 30).2 2 1 none = none
    ∧ deleteRelationship (deleteRelationship c3wStore 30).2 30
        = (false, (deleteRelationship c3wStore 30).2) := by
  have h := c3_delete_relationship_removes_pair c3wStore 30
    ({ baseRel 30 1 2 .mentor with is_mutual := true }) (by decide)
  have hpair := h.2.2.2.1 (by decide) (by decide)
  exact ⟨h.1, hpair.1, hpair.2, h.2.2.1⟩

/-- Expanding one character preserves duplicate-freeness of the visited set:
a character is only appended when it is not yet a member. -/
lemma visitChar_visited_nodup (s : Store) (depth : Nat) (acc : BfsState) (cid : Nat)
    (h : acc.visited.Nodup) : (visitChar s depth acc cid).visited.Nodup := by
  unfold visitChar
  split
  · exact h
  · rename_i hnot
    refine List.Nodup.append h (List.nodup_singleton cid) ?_
    intro a ha hb
    exact hnot (List.mem_singleton.mp hb ▸ ha)

/-- One whole level of expansions preserves duplicate-freeness of the visited
set. -/
lemma foldl_visitChar_nodup (s : Store) (depth : Nat) :
    ∀ (l : List Nat) (acc : BfsState), acc.visited.Nodup →
    ((l.foldl (visitChar s depth) acc).visited).Nodup := by
  intro l
  induction l with
  | nil => intro acc h; exact h
  | cons c l ih =>
    intro acc h
    exact ih _ (visitChar_visited_nodup s depth acc c h)

/-- The visited set of the whole breadth-first loop is duplicate-free. -/
lemma bfsLevels_visited_nodup (s : Store) :
    ∀ (fuel depth : Nat) (current visited : List Nat) (edges : List NetEdge),
    visited.Nodup → (bfsLevels s fuel depth current visited edges).1.Nodup := by
  intro fuel
  induction fuel with
  | zero => intro depth current visited edges h; exact h
  | succ fuel ih =>
    intro depth current visited edges h
    simp only [bfsLevels]
    split
    · exact h
    · exact ih _ _ _ _ (foldl_visitChar_nodup s depth current ⟨visited, [], edges⟩ h)

/-- C8: get_relationship_network is a total function of the store (the loop
runs at most max_depth levels, mirroring for depth in range(max_depth)), and
on every store - cyclic graphs included - each character id appears at most
once in the returned characters map (exactly once when present), because the
visited set is duplicate-free and character details are fetched from the
table, which has unique ids. -/
theorem c8_network_traversal_each_character_once (s : Store) (cid maxDepth : Nat)
    (hids : (s.characters.map (fun c => c.id)).Nodup) :
    ((getRelationshipNetwork s cid maxDepth).characters.map
        (fun c => c.id)).Nodup
    ∧ (∀ i ∈ (getRelationshipNetwork s cid maxDepth).characters.map
          (fun c => c.id),
        ((getRelationshipNetwork s cid maxDepth).characters.map
            (fun c => c.id)).count i = 1)
    ∧ (bfsLevels s maxDepth 0 [cid] [] []).1.Nodup := by
  have hchars : (getRelationshipNetwork s cid maxDepth).characters.map
      (fun c : NetCharacter => c.id)
      = (s.characters.filter
          (fun c => decide (c.id ∈ (bfsLevels s maxDepth 0 [cid] [] []).1))).map
        (fun c => c.id) := by
    simp [getRelationshipNetwork, List.map_map, Function.comp]
  have hnd : ((getRelationshipNetwork s cid maxDepth).characters.map
      (fun c : NetCharacter => c.id)).Nodup := by
    rw [hchars]
    exact ((List.filter_sublist s.characters).map (fun c => c.id)).nodup hids
  refine ⟨hnd, ?_, bfsLevels_visited_nodup s maxDepth 0 [cid] [] [] List.nodup_nil⟩
  intro i hi
  exact List.count_eq_one_of_mem hnd hi

/-- C8 witness: on the cyclic three-character graph the traversal from Elena
with max_depth 2 lists each character once and visits each character once. -/
theorem c8_network_traversal_each_character_once_witness :
    ((getRelationshipNetwork netStore 1 2).characters.map (fun c => c.id)).Nodup
    ∧ (bfsLevels netStore 2 0 [1] [] []).1.Nodup :=
  ⟨(c8_network_traversal_each_character_once netStore 1 2 (by decide)).1,
   (c8_network_traversal_each_character_once netStore 1 2 (by decide)).2.2⟩

end McpCharacter
